import Mathlib

/-!
Verification of the Meisengeige subscription bot core: the subscriber store
(`SubscriberManager` in `src/subscribers.py`, duplicated in `api/webhook.py`)
and the inbound-event command router (`process_update` in `api/webhook.py`).

The Python subscriber set is modelled as a `Finset Int` (Telegram chat ids are
signed 64-bit integers; set semantics is exact).  The durable JSON file is
modelled by `FileState`: missing, unparseable (corrupt), or holding a parsed
JSON value.  Write failures and crash points of the save path are modelled
explicitly, because the source catches `OSError` on write (returning the
in-memory result regardless) and opens the file with the truncating mode
before serializing.
-/

namespace Meisengeige

/-- A JSON value, as far as the subscriber file format needs: numbers,
strings, arrays and objects (an object is a list of key/value fields). -/
inductive Json where
  | num (n : Int)
  | str (s : String)
  | arr (xs : List Json)
  | obj (fields : List (String × Json))

/-- State of the durable resource backing the store: the file may be absent,
present but unparseable by the JSON decoder, or present with a parsed value. -/
inductive FileState where
  | missing
  | corrupt
  | json (v : Json)

/-- Python `dict.get(key, default)` on a parsed JSON object. -/
def pyDictGet (fields : List (String × Json)) (key : String) (dflt : Json) : Json :=
  match fields.lookup key with
  | some v => v
  | none => dflt

/-- Collect a JSON array of numbers into a list of integers; `none` when some
element is not a number (Python `set(...)` would then build a set of non-int
members or raise, never the int set the store expects). -/
def jsonToIntList : List Json → Option (List Int)
  | [] => some []
  | .num n :: rest => (jsonToIntList rest).map (n :: ·)
  | _ => none

/-- Python `set(x)` specialised to the store: succeeds exactly on an array of
integers, producing the set of its elements; anything else is a runtime
`TypeError` (not caught by the load path). -/
def pySetOfJson (v : Json) : Except String (Finset Int) :=
  match v with
  | .arr xs =>
    match jsonToIntList xs with
    | some ns => .ok ns.toFinset
    | none => .error "TypeError"
  | _ => .error "TypeError"

/-- Model of `SubscriberManager._load_subscribers`: a missing file gives the empty set;
a file the JSON decoder cannot parse raises `json.JSONDecodeError`, which is
caught, logged and turned into the empty set; a parsed object is read through
`data.get('subscribers', [])` and `set(...)`.  A parsed non-object value would
raise `AttributeError` on `.get`, which the source does not catch. -/
def loadSubscribers : FileState → Except String (Finset Int)
  | .missing => .ok ∅
  | .corrupt => .ok ∅
  | .json (.obj fields) => pySetOfJson (pyDictGet fields "subscribers" (.arr []))
  | .json _ => .error "AttributeError"

/-- Enumerate a multiset of integers as the ascending list of its elements. -/
def subsListM (m : Multiset Int) : List Int :=
  Quotient.lift (List.insertionSort (· ≤ ·))
    (fun l₁ l₂ h =>
      List.eq_of_perm_of_sorted
        (((List.perm_insertionSort _ l₁).trans h).trans
          (List.perm_insertionSort _ l₂).symm)
        (List.sorted_insertionSort _ l₁) (List.sorted_insertionSort _ l₂))
    m

/-- The list `list(self._subscribers)` produces: the members of the set, each
exactly once, in some order (Python set iteration order is arbitrary; the
ascending order is taken as the representative enumeration). -/
def subsList (subs : Finset Int) : List Int :=
  subsListM subs.val

/-- The JSON value `_save_subscribers` serializes:
`{'subscribers': list(self._subscribers)}`. -/
def serializeSubscribers (subs : Finset Int) : Json :=
  .obj [("subscribers", .arr ((subsList subs).map .num))]

/-- Model of `SubscriberManager._save_subscribers`: overwrite the file with the
serialized set; an `OSError` is caught (logged / passed), leaving the previous
file contents in place.  `writeOk` selects which of the two outcomes the
environment produces. -/
def saveSubscribers (subs : Finset Int) (writeOk : Bool) (file : FileState) : FileState :=
  if writeOk then .json (serializeSubscribers subs) else file

/-- Where execution of `_save_subscribers` can stop when the process crashes
or is killed mid-call. -/
inductive SaveCrashPoint where
  | beforeOpen
  | midWrite
  | completed

/-- Crash semantics of `_save_subscribers`: `open(self.storage_file, 'w')`
truncates the file to zero length before `json.dump` serializes into it, so a
crash between the open and the completion of the dump leaves an empty or
partially written file that the JSON decoder cannot parse; a crash before the
open leaves the previous contents; without a crash the new serialization is
in place. -/
def saveSubscribersAt (subs : Finset Int) (c : SaveCrashPoint)
    (file : FileState) : FileState :=
  match c with
  | .beforeOpen => file
  | .midWrite => .corrupt
  | .completed => .json (serializeSubscribers subs)

/-- In-memory plus durable state of one `SubscriberManager`. -/
structure StoreState where
  mem : Finset Int
  file : FileState

/-- Model of `SubscriberManager.add_subscriber`: no-op returning `False` when already
present; otherwise insert, persist the whole set, return `True`. -/
def add_subscriber (chat_id : Int) (writeOk : Bool) (st : StoreState) :
    Bool × StoreState :=
  if chat_id ∈ st.mem then (false, st)
  else
    let mem := insert chat_id st.mem
    (true, ⟨mem, saveSubscribers mem writeOk st.file⟩)

/-- Model of `SubscriberManager.remove_subscriber`: no-op returning `False` when
absent; otherwise erase, persist the whole set, return `True`. -/
def remove_subscriber (chat_id : Int) (writeOk : Bool) (st : StoreState) :
    Bool × StoreState :=
  if chat_id ∉ st.mem then (false, st)
  else
    let mem := st.mem.erase chat_id
    (true, ⟨mem, saveSubscribers mem writeOk st.file⟩)

/-- Model of `SubscriberManager.is_subscribed`. -/
def is_subscribed (chat_id : Int) (st : StoreState) : Bool :=
  decide (chat_id ∈ st.mem)

/-- Model of `SubscriberManager.get_subscriber_count`. -/
def get_subscriber_count (st : StoreState) : Nat :=
  st.mem.card

/-- Populate a store by calling `add_subscriber` once per list element, in
list order: the program's way of inserting identities one at a time. -/
def buildStore (l : List Int) (writeOk : Bool) (st : StoreState) : StoreState :=
  l.foldl (fun s i => (add_subscriber i writeOk s).2) st

/-- The fields of a Telegram update that `process_update` reads: the chat id,
the optional message text (`update.message.text` is `None` for non-text
messages) and the optional sender first name. -/
structure Message where
  chatId : Int
  text : Option String
  firstName : Option String

/-- What `process_update` returns and sends: either the ignored no-op outcome
`{'status': 'ignored', 'reason': ...}`, or a success outcome carrying the
stripped command echoed in the response dict, the reply text sent via
`bot.send_message`, its `parse_mode`, and whether the text matched one of the
recognized command branches (false exactly on the unknown-command branch). -/
inductive ProcessResult where
  | ignored (reason : String)
  | success (command : String) (replyText : String) (parseMode : Option String)
      (commandRecognized : Bool)
  deriving DecidableEq

/-- Whether the outcome is the silent ignored one. -/
def ProcessResult.isIgnored : ProcessResult → Bool
  | .ignored _ => true
  | _ => false

/-- Whether the outcome is a reply flagged as an unrecognized command. -/
def ProcessResult.isUnrecognized : ProcessResult → Bool
  | .success _ _ _ rec => !rec
  | _ => false

/-- Python `str.strip()` with no argument: drop leading and trailing
whitespace characters. -/
def pyStrip (s : String) : String :=
  String.mk
    (((s.data.dropWhile Char.isWhitespace).reverse.dropWhile
        Char.isWhitespace).reverse)

/-- Python `update.message.from_user.first_name or "there"`: the fallback is
taken when the name is `None` or the empty (falsy) string. -/
def pyOrStr (x : Option String) (dflt : String) : String :=
  match x with
  | none => dflt
  | some s => if s = "" then dflt else s

/-- Aliases routed to `handle_start_command`. -/
def subscribeAliases : List String := ["/start", "✅ Подписаться"]

/-- Aliases routed to `handle_stop_command`. -/
def unsubscribeAliases : List String := ["/stop", "❌ Отписаться"]

/-- Aliases routed to `handle_status_command`. -/
def statusAliases : List String := ["/status", "📊 Статус"]

/-- Reply of the unknown-command branch of `process_update`. -/
def unknownCommandReply : String :=
  "Неизвестная команда.\n\n" ++
  "Используйте кнопки ниже для управления подпиской."

/-- Fixed text after the substituted name in the welcome reply. -/
def welcomeReplyTail : String :=
  "!\n\n" ++
  "Вы подписались на обновления программы Meisengeige.\n\n" ++
  "Вы будете получать уведомления когда:\n" ++
  "✨ Добавляются новые фильмы\n" ++
  "🔄 Обновляются сеансы\n" ++
  "❌ Удаляются фильмы\n\n" ++
  "Используйте кнопки ниже для управления подпиской."

/-- Welcome reply of `handle_start_command` when the add changed membership;
the sender name is interpolated verbatim between fixed text. -/
def welcomeReply (user_first_name : String) : String :=
  "🎬 Добро пожаловать, " ++ user_first_name ++ welcomeReplyTail

/-- Fixed text after the substituted name in the already-subscribed reply. -/
def alreadySubscribedReplyTail : String :=
  "!\n\n" ++
  "Вы уже подписаны на уведомления.\n\n" ++
  "Используйте кнопки ниже для управления подпиской."

/-- Reply of `handle_start_command` when the id was already subscribed. -/
def alreadySubscribedReply (user_first_name : String) : String :=
  "👋 Привет, " ++ user_first_name ++ alreadySubscribedReplyTail

/-- Model of `handle_start_command`: add the chat id and pick the reply by whether the
membership changed. -/
def handle_start_command (chat_id : Int) (user_first_name : String)
    (writeOk : Bool) (st : StoreState) : String × StoreState :=
  let r := add_subscriber chat_id writeOk st
  (if r.1 then welcomeReply user_first_name
   else alreadySubscribedReply user_first_name, r.2)

/-- Reply of `handle_stop_command` when the remove changed membership. -/
def unsubscribedReply : String :=
  "👋 Вы отписались от уведомлений Meisengeige.\n\n" ++
  "Вы можете подписаться снова в любое время."

/-- Reply of `handle_stop_command` when the id was not subscribed. -/
def notSubscribedReply : String :=
  "Вы не подписаны на уведомления.\n\n" ++
  "Используйте кнопку \"✅ Подписаться\" для подписки."

/-- Model of `handle_stop_command`: remove the chat id and pick the reply by whether
the membership changed. -/
def handle_stop_command (chat_id : Int) (writeOk : Bool) (st : StoreState) :
    String × StoreState :=
  let r := remove_subscriber chat_id writeOk st
  (if r.1 then unsubscribedReply else notSubscribedReply, r.2)

/-- Reply of `handle_status_command` for an active subscription, showing the
total subscriber count. -/
def statusActiveReply (total : Nat) : String :=
  "✅ <b>Подписка активна</b>\n\n" ++
  "Вы получаете обновления программы Meisengeige.\n" ++
  "Всего подписчиков: " ++ toString total ++ "\n\n" ++
  "Используйте кнопки ниже для управления подпиской."

/-- Reply of `handle_status_command` for an inactive subscription. -/
def statusInactiveReply : String :=
  "❌ <b>Не подписаны</b>\n\n" ++
  "Вы не получаете уведомления.\n\n" ++
  "Используйте кнопку \"✅ Подписаться\" для подписки."

/-- Model of `handle_status_command`: read-only status report. -/
def handle_status_command (chat_id : Int) (st : StoreState) : String :=
  if is_subscribed chat_id st then
    statusActiveReply (get_subscriber_count st)
  else
    statusInactiveReply

/-- Model of `process_update`: the command router.  `if not update.message or not
update.message.text` is Python truthiness: a missing update/message, a `None`
text and an empty-string text all take the ignored branch.  Otherwise the
text is stripped of surrounding whitespace and matched by exact equality
against the alias lists; any other text falls to the unknown-command reply. -/
def process_update (upd : Option Message) (writeOk : Bool) (st : StoreState) :
    ProcessResult × StoreState :=
  match upd with
  | none => (.ignored "no text message", st)
  | some msg =>
    match msg.text with
    | none => (.ignored "no text message", st)
    | some rawText =>
      if rawText = "" then (.ignored "no text message", st)
      else
        let text := pyStrip rawText
        let user_first_name := pyOrStr msg.firstName "there"
        if text ∈ subscribeAliases then
          let r := handle_start_command msg.chatId user_first_name writeOk st
          (.success text r.1 none true, r.2)
        else if text ∈ unsubscribeAliases then
          let r := handle_stop_command msg.chatId writeOk st
          (.success text r.1 none true, r.2)
        else if text ∈ statusAliases then
          (.success text (handle_status_command msg.chatId st) (some "HTML") true, st)
        else
          (.success text unknownCommandReply none false, st)

/-! Helper lemmas about the serialization list and the store operations. -/

/-- The enumeration of a multiset carries exactly its elements. -/
theorem subsListM_coe (m : Multiset Int) : (subsListM m : Multiset Int) = m :=
  Quotient.inductionOn m fun l => Quotient.sound (List.perm_insertionSort _ l)

/-- Membership in the serialized list is membership in the set. -/
theorem mem_subsList (a : Int) (s : Finset Int) : a ∈ subsList s ↔ a ∈ s := by
  rw [← Multiset.mem_coe, subsList, subsListM_coe]
  exact Iff.rfl

/-- The serialized list repeats no identity. -/
theorem subsList_nodup (s : Finset Int) : (subsList s).Nodup := by
  have h : ((subsList s : Multiset Int)).Nodup := by
    rw [subsList, subsListM_coe]
    exact s.nodup
  exact Multiset.coe_nodup.mp h

/-- The serialized list collects back to the original set. -/
theorem subsList_toFinset (s : Finset Int) : (subsList s).toFinset = s := by
  ext a
  rw [List.mem_toFinset, mem_subsList]

/-- Collecting a list of numeric JSON values recovers the integer list. -/
theorem jsonToIntList_map_num (ns : List Int) :
    jsonToIntList (ns.map Json.num) = some ns := by
  induction ns with
  | nil => rfl
  | cons a l ih => simp [jsonToIntList, ih]

/-- Loading a file holding the serialization of a set recovers the set. -/
theorem loadSubscribers_serialize (s : Finset Int) :
    loadSubscribers (.json (serializeSubscribers s)) = .ok s := by
  simp [loadSubscribers, serializeSubscribers, pyDictGet, List.lookup,
    pySetOfJson, jsonToIntList_map_num, subsList_toFinset]

/-- The in-memory effect of `add_subscriber` is set insertion. -/
theorem add_subscriber_mem (i : Int) (w : Bool) (st : StoreState) :
    (add_subscriber i w st).2.mem = insert i st.mem := by
  by_cases h : i ∈ st.mem
  · simp [add_subscriber, h]
  · simp [add_subscriber, h]

/-- The membership accumulated by `buildStore` is the union with the list. -/
theorem buildStore_mem (l : List Int) (w : Bool) (st : StoreState) :
    (buildStore l w st).mem = st.mem ∪ l.toFinset := by
  induction l generalizing st with
  | nil => simp [buildStore]
  | cons a l ih =>
    show (buildStore l w (add_subscriber a w st).2).mem = _
    rw [ih, add_subscriber_mem, List.toFinset_cons, Finset.insert_union,
      Finset.union_insert]

/-- With successful writes, `buildStore` keeps the file synchronized with the
in-memory set once it is synchronized at the start. -/
theorem buildStore_file (l : List Int) (st : StoreState)
    (h : st.file = .json (serializeSubscribers st.mem)) :
    (buildStore l true st).file =
      .json (serializeSubscribers (buildStore l true st).mem) := by
  induction l generalizing st with
  | nil => exact h
  | cons a l ih =>
    show (buildStore l true (add_subscriber a true st).2).file = _
    apply ih
    by_cases hm : a ∈ st.mem
    · simpa [add_subscriber, hm] using h
    · simp [add_subscriber, hm, saveSubscribers]

/-! Claim theorems. -/

set_option maxRecDepth 8000

/-- C1: for every identity and every store state, `add_subscriber id` then
`is_subscribed id` is `true`, and `remove_subscriber id` then
`is_subscribed id` is `false`, whatever the outcome of the durable write. -/
theorem add_remove_then_contains (id : Int) (w₁ w₂ : Bool) (st : StoreState) :
    is_subscribed id (add_subscriber id w₁ st).2 = true ∧
    is_subscribed id (remove_subscriber id w₂ st).2 = false := by
  constructor
  · by_cases h : id ∈ st.mem <;> simp [add_subscriber, is_subscribed, h]
  · by_cases h : id ∈ st.mem <;> simp [remove_subscriber, is_subscribed, h]

/-- C2 counterexample: on a store that already holds the identity, the first
of two `add_subscriber` calls returns `false`, not `true`, so the pair of
results is not `(true, false)` for every store state. -/
theorem add_twice_counterexample :
    (add_subscriber 5 true ⟨{5}, .missing⟩).1 = false := by decide

/-- C2 amended: on a store not holding the identity, `add_subscriber` twice
returns `(true, false)`; on a store holding it, `remove_subscriber` twice
returns `(true, false)`; on a store not holding it, `remove_subscriber`
returns `false` and leaves `get_subscriber_count` unchanged. -/
theorem store_mutation_idempotence (id : Int) (w₁ w₂ : Bool) (st : StoreState) :
    (id ∉ st.mem →
      (add_subscriber id w₁ st).1 = true ∧
      (add_subscriber id w₂ (add_subscriber id w₁ st).2).1 = false) ∧
    (id ∈ st.mem →
      (remove_subscriber id w₁ st).1 = true ∧
      (remove_subscriber id w₂ (remove_subscriber id w₁ st).2).1 = false) ∧
    (id ∉ st.mem →
      (remove_subscriber id w₁ st).1 = false ∧
      get_subscriber_count (remove_subscriber id w₁ st).2 =
        get_subscriber_count st) := by
  refine ⟨fun h => ⟨?_, ?_⟩, fun h => ⟨?_, ?_⟩, fun h => ⟨?_, ?_⟩⟩
  · simp [add_subscriber, h]
  · simp [add_subscriber, h]
  · simp [remove_subscriber, h]
  · simp [remove_subscriber, h]
  · simp [remove_subscriber, h]
  · simp [remove_subscriber, h]

/-- C2 amended, witnessed at concrete stores: the absent-id clauses at id 1
and 3 over the empty store and the present-id clause at id 2 over `{2}`. -/
theorem store_mutation_idempotence_witness :
    ((add_subscriber 1 true (⟨∅, .missing⟩ : StoreState)).1 = true ∧
      (add_subscriber 1 true
        (add_subscriber 1 true (⟨∅, .missing⟩ : StoreState)).2).1 = false) ∧
    ((remove_subscriber 2 true (⟨{2}, .missing⟩ : StoreState)).1 = true ∧
      (remove_subscriber 2 true
        (remove_subscriber 2 true (⟨{2}, .missing⟩ : StoreState)).2).1 = false) ∧
    ((remove_subscriber 3 true (⟨∅, .missing⟩ : StoreState)).1 = false ∧
      get_subscriber_count
        (remove_subscriber 3 true (⟨∅, .missing⟩ : StoreState)).2 =
        get_subscriber_count (⟨∅, .missing⟩ : StoreState)) :=
  ⟨(store_mutation_idempotence 1 true true ⟨∅, .missing⟩).1 (by decide),
    (store_mutation_idempotence 2 true true ⟨{2}, .missing⟩).2.1 (by decide),
    (store_mutation_idempotence 3 true true ⟨∅, .missing⟩).2.2 (by decide)⟩

/-- C3: loading from a missing durable file and loading from an existing but
unparseable one both yield the empty set, not an error. -/
theorem load_missing_or_corrupt_is_empty :
    loadSubscribers .missing = .ok ∅ ∧ loadSubscribers .corrupt = .ok ∅ :=
  ⟨rfl, rfl⟩

/-- C4: inserting any nonempty list of identities one at a time, in list
order, with every durable write succeeding, leaves a durable file that loads
back to exactly the set of inserted identities, which is also the in-memory
set — independent of the insertion order, since the result depends only on
`l.toFinset`. -/
theorem persist_then_load_round_trip (l : List Int) (fs : FileState)
    (h : l ≠ []) :
    loadSubscribers (buildStore l true ⟨∅, fs⟩).file = .ok l.toFinset ∧
    (buildStore l true ⟨∅, fs⟩).mem = l.toFinset := by
  obtain ⟨a, l', rfl⟩ := List.exists_cons_of_ne_nil h
  have hmem : (buildStore (a :: l') true ⟨∅, fs⟩).mem = (a :: l').toFinset := by
    rw [buildStore_mem]
    simp
  refine ⟨?_, hmem⟩
  have hstep : buildStore (a :: l') true ⟨∅, fs⟩ =
      buildStore l' true ⟨{a}, .json (serializeSubscribers {a})⟩ := by
    show buildStore l' true (add_subscriber a true ⟨∅, fs⟩).2 = _
    simp [add_subscriber, saveSubscribers]
  have hfile := buildStore_file l' ⟨{a}, .json (serializeSubscribers {a})⟩ rfl
  rw [hstep, hfile, ← hstep, hmem, loadSubscribers_serialize]

/-- C4 witnessed at the concrete insertion order `[2, 1, 2]`. -/
theorem persist_then_load_round_trip_witness :
    loadSubscribers (buildStore [2, 1, 2] true ⟨∅, .missing⟩).file =
      .ok ([2, 1, 2] : List Int).toFinset ∧
    (buildStore [2, 1, 2] true ⟨∅, .missing⟩).mem =
      ([2, 1, 2] : List Int).toFinset :=
  persist_then_load_round_trip [2, 1, 2] .missing (by decide)

/-- C7: when the durable write fails (`OSError` caught inside
`_save_subscribers`), a membership-changing `add_subscriber` or
`remove_subscriber` still returns `true`, the in-memory mutation is kept, and
the durable file keeps its previous contents. -/
theorem write_failure_keeps_mutation (id : Int) (st : StoreState) :
    (id ∉ st.mem →
      add_subscriber id false st = (true, ⟨insert id st.mem, st.file⟩)) ∧
    (id ∈ st.mem →
      remove_subscriber id false st = (true, ⟨st.mem.erase id, st.file⟩)) := by
  constructor
  · intro h
    simp [add_subscriber, saveSubscribers, h]
  · intro h
    simp [remove_subscriber, saveSubscribers, h]

/-- C7 witnessed: a failing write during `add_subscriber 1` on the empty
store and during `remove_subscriber 2` on `{2}`. -/
theorem write_failure_keeps_mutation_witness :
    add_subscriber 1 false (⟨∅, .missing⟩ : StoreState) =
      (true, ⟨insert 1 (∅ : Finset Int), FileState.missing⟩) ∧
    remove_subscriber 2 false (⟨{2}, .missing⟩ : StoreState) =
      (true, ⟨({2} : Finset Int).erase 2, FileState.missing⟩) :=
  ⟨(write_failure_keeps_mutation 1 ⟨∅, .missing⟩).1 (by decide),
    (write_failure_keeps_mutation 2 ⟨{2}, .missing⟩).2 (by decide)⟩

/-- C5 counterexample: an update whose text field is present but the empty
string takes the ignored branch (Python truthiness of `""` in `if not
update.message.text`), not the unrecognized-command branch the claim
requires. -/
theorem empty_text_counterexample :
    (process_update (some ⟨1, some "", some "X"⟩) true
      ⟨∅, .missing⟩).1.isIgnored = true ∧
    (process_update (some ⟨1, some "", some "X"⟩) true
      ⟨∅, .missing⟩).1.isUnrecognized = false := by
  decide

/-- C5 amended: a missing update, a message without a text field, and a
message whose text is the empty string all yield the silent ignored outcome;
text that is nonempty but whitespace-only is routed to the
unrecognized-command reply. -/
theorem text_presence_routing (st : StoreState) (w : Bool) (id : Int)
    (fn fn₂ : Option String) (t : String) (ht : t ≠ "")
    (hw : pyStrip t = "") :
    process_update none w st = (.ignored "no text message", st) ∧
    process_update (some ⟨id, none, fn⟩) w st =
      (.ignored "no text message", st) ∧
    process_update (some ⟨id, some "", fn⟩) w st =
      (.ignored "no text message", st) ∧
    process_update (some ⟨id, some t, fn₂⟩) w st =
      (.success "" unknownCommandReply none false, st) := by
  refine ⟨rfl, rfl, rfl, ?_⟩
  have h1 : ("" : String) ∉ subscribeAliases := by decide
  have h2 : ("" : String) ∉ unsubscribeAliases := by decide
  have h3 : ("" : String) ∉ statusAliases := by decide
  simp [process_update, ht, hw, h1, h2, h3]

/-- C5 amended, witnessed with the whitespace-only text `" "`. -/
theorem text_presence_routing_witness :
    process_update none true (⟨∅, .missing⟩ : StoreState) =
      (.ignored "no text message", (⟨∅, .missing⟩ : StoreState)) ∧
    process_update (some ⟨1, none, some "X"⟩) true
        (⟨∅, .missing⟩ : StoreState) =
      (.ignored "no text message", (⟨∅, .missing⟩ : StoreState)) ∧
    process_update (some ⟨1, some "", some "X"⟩) true
        (⟨∅, .missing⟩ : StoreState) =
      (.ignored "no text message", (⟨∅, .missing⟩ : StoreState)) ∧
    process_update (some ⟨1, some " ", some "X"⟩) true
        (⟨∅, .missing⟩ : StoreState) =
      (.success "" unknownCommandReply none false,
        (⟨∅, .missing⟩ : StoreState)) :=
  text_presence_routing ⟨∅, .missing⟩ true 1 (some "X") (some "X") " "
    (by decide) (by decide)

/-- C6 counterexample: on the text `"banana"` the outcome is the
unrecognized-command reply with the store unchanged, but that reply does not
contain any of the canonical commands `/start`, `/stop`, `/status` — it does
not list the recognized commands as the claim states. -/
theorem unknown_reply_counterexample :
    (process_update (some ⟨7, some "banana", some "X"⟩) true
      ⟨∅, .missing⟩).1 = .success "banana" unknownCommandReply none false ∧
    (process_update (some ⟨7, some "banana", some "X"⟩) true
      ⟨∅, .missing⟩).2 = (⟨∅, .missing⟩ : StoreState) ∧
    ¬ ("/start".toList <:+: unknownCommandReply.toList) ∧
    ¬ ("/stop".toList <:+: unknownCommandReply.toList) ∧
    ¬ ("/status".toList <:+: unknownCommandReply.toList) := by
  refine ⟨by decide, rfl, by decide, by decide, by decide⟩

/-- C6 amended: any nonempty text whose stripped form matches no configured
alias yields the fixed unknown-command reply (which points at the keyboard
buttons and does not enumerate the canonical commands), with
`commandRecognized = false` and the store unchanged. -/
theorem unrecognized_text_outcome (st : StoreState) (w : Bool) (id : Int)
    (fn : Option String) (t : String) (h0 : t ≠ "")
    (h1 : pyStrip t ∉ subscribeAliases) (h2 : pyStrip t ∉ unsubscribeAliases)
    (h3 : pyStrip t ∉ statusAliases) :
    process_update (some ⟨id, some t, fn⟩) w st =
      (.success (pyStrip t) unknownCommandReply none false, st) := by
  simp [process_update, h0, h1, h2, h3]

/-- C6 amended, witnessed with the text `"banana"` over the empty store. -/
theorem unrecognized_text_outcome_witness :
    process_update (some ⟨7, some "banana", some "X"⟩) true
        (⟨∅, .missing⟩ : StoreState) =
      (.success (pyStrip "banana") unknownCommandReply none false,
        (⟨∅, .missing⟩ : StoreState)) :=
  unrecognized_text_outcome ⟨∅, .missing⟩ true 7 (some "X") "banana"
    (by decide) (by decide) (by decide) (by decide)

/-- C8: the save path rewrites the durable file in place (truncating open,
then serialize), so a crash after the truncation during the save triggered by
adding identity 2 over the good persisted set `{1}` leaves an unparseable
file: the previously persisted state is silently dropped — a reload yields
the empty set instead of `{1}`. -/
theorem crash_mid_save_drops_previous_state :
    saveSubscribersAt {1, 2} .midWrite (.json (serializeSubscribers {1})) =
      .corrupt ∧
    loadSubscribers
      (saveSubscribersAt {1, 2} .midWrite
        (.json (serializeSubscribers {1}))) = .ok (∅ : Finset Int) ∧
    loadSubscribers (.json (serializeSubscribers {1})) =
      .ok ({1} : Finset Int) ∧
    ({1} : Finset Int) ≠ ∅ := by
  exact ⟨rfl, rfl, loadSubscribers_serialize {1}, by decide⟩

/-- C9: for an event whose stripped text is a subscribe alias, the reply is
the welcome (or already-subscribed) message with the sender name substituted
verbatim between fixed text, where the name is the first name unless it is
missing or empty, in which case the placeholder `"there"` is used. -/
theorem subscribe_event_display_name (st : StoreState) (w : Bool) (id : Int)
    (fn : Option String) (t : String) (ht : pyStrip t ∈ subscribeAliases) :
    (process_update (some ⟨id, some t, fn⟩) w st).1 =
      .success (pyStrip t)
        (if id ∈ st.mem then alreadySubscribedReply (pyOrStr fn "there")
         else welcomeReply (pyOrStr fn "there")) none true ∧
    welcomeReply (pyOrStr fn "there") =
      "🎬 Добро пожаловать, " ++ pyOrStr fn "there" ++ welcomeReplyTail ∧
    ((fn = none ∨ fn = some "") → pyOrStr fn "there" = "there") := by
  have h0 : t ≠ "" := fun hc => by
    rw [hc] at ht
    exact absurd ht (by decide)
  refine ⟨?_, rfl, ?_⟩
  · by_cases hm : id ∈ st.mem <;>
      simp [process_update, h0, ht, handle_start_command, add_subscriber, hm]
  · rintro (rfl | rfl) <;> rfl

/-- C9 witnessed: `/start` from a sender with an empty first name over the
empty store. -/
theorem subscribe_event_display_name_witness :
    (process_update (some ⟨42, some "/start", some ""⟩) true
      (⟨∅, .missing⟩ : StoreState)).1 =
      .success (pyStrip "/start")
        (if (42 : Int) ∈ (⟨∅, .missing⟩ : StoreState).mem then
          alreadySubscribedReply (pyOrStr (some "") "there")
         else welcomeReply (pyOrStr (some "") "there")) none true ∧
    welcomeReply (pyOrStr (some "") "there") =
      "🎬 Добро пожаловать, " ++ pyOrStr (some "") "there" ++
        welcomeReplyTail ∧
    ((some "" = (none : Option String) ∨ (some "" : Option String) = some "")
      → pyOrStr (some "") "there" = "there") :=
  subscribe_event_display_name ⟨∅, .missing⟩ true 42 (some "") "/start"
    (by decide)

/-- C10: after a membership-changing `add_subscriber` or `remove_subscriber`
whose durable write succeeds, the file holds a JSON object whose single
`subscribers` field is an array listing each identity of the current
in-memory set exactly once. -/
theorem durable_state_matches_memory (id : Int) (st : StoreState) :
    (id ∉ st.mem →
      (add_subscriber id true st).2.mem = insert id st.mem ∧
      (add_subscriber id true st).2.file =
        .json (.obj [("subscribers",
          .arr ((subsList (insert id st.mem)).map .num))]) ∧
      (subsList (insert id st.mem)).Nodup ∧
      (subsList (insert id st.mem)).toFinset = insert id st.mem) ∧
    (id ∈ st.mem →
      (remove_subscriber id true st).2.mem = st.mem.erase id ∧
      (remove_subscriber id true st).2.file =
        .json (.obj [("subscribers",
          .arr ((subsList (st.mem.erase id)).map .num))]) ∧
      (subsList (st.mem.erase id)).Nodup ∧
      (subsList (st.mem.erase id)).toFinset = st.mem.erase id) := by
  constructor
  · intro h
    refine ⟨?_, ?_, subsList_nodup _, subsList_toFinset _⟩
    · simp [add_subscriber, h]
    · simp [add_subscriber, h, saveSubscribers, serializeSubscribers]
  · intro h
    refine ⟨?_, ?_, subsList_nodup _, subsList_toFinset _⟩
    · simp [remove_subscriber, h]
    · simp [remove_subscriber, h, saveSubscribers, serializeSubscribers]

/-- C10 witnessed: adding identity 1 to the empty store and removing
identity 2 from `{2}`, with successful writes. -/
theorem durable_state_matches_memory_witness :
    ((add_subscriber 1 true (⟨∅, .missing⟩ : StoreState)).2.mem =
        insert 1 (∅ : Finset Int) ∧
      (add_subscriber 1 true (⟨∅, .missing⟩ : StoreState)).2.file =
        .json (.obj [("subscribers",
          .arr ((subsList (insert 1 (∅ : Finset Int))).map .num))]) ∧
      (subsList (insert 1 (∅ : Finset Int))).Nodup ∧
      (subsList (insert 1 (∅ : Finset Int))).toFinset =
        insert 1 (∅ : Finset Int)) ∧
    ((remove_subscriber 2 true (⟨{2}, .missing⟩ : StoreState)).2.mem =
        ({2} : Finset Int).erase 2 ∧
      (remove_subscriber 2 true (⟨{2}, .missing⟩ : StoreState)).2.file =
        .json (.obj [("subscribers",
          .arr ((subsList (({2} : Finset Int).erase 2)).map .num))]) ∧
      (subsList (({2} : Finset Int).erase 2)).Nodup ∧
      (subsList (({2} : Finset Int).erase 2)).toFinset =
        ({2} : Finset Int).erase 2) :=
  ⟨(durable_state_matches_memory 1 ⟨∅, .missing⟩).1 (by decide),
    (durable_state_matches_memory 2 ⟨{2}, .missing⟩).2 (by decide)⟩

end Meisengeige
